import Mathlib

/-!
Shallow embedding of the exercise-submission validation pipeline and the
XP/level/streak progress ledger of the portfolio backend
(`apps/portfolio/models.py`, `apps/portfolio/views.py`,
`apps/portfolio/services/gemini_service.py`).

Dates are modelled as integer day numbers, timestamps as integers, and the
Python `float` arithmetic of ratio computations as exact rational
arithmetic over `ℚ`.  Django many-to-many sets are modelled as duplicate-free
lists with idempotent insertion, mirroring `.add` / `in ... .all()`.
-/

/-- Python's `needle in haystack` on strings, at a given suffix: does
`needle` occur as a prefix of `hay`? -/
def startsWithChars : List Char → List Char → Bool
  | [], _ => true
  | _ :: _, [] => false
  | a :: as, b :: bs => a == b && startsWithChars as bs

/-- Python's `needle in haystack` membership test on character lists. -/
def occursIn (needle : List Char) : List Char → Bool
  | [] => startsWithChars needle []
  | c :: rest => startsWithChars needle (c :: rest) || occursIn needle rest

/-- Python's substring containment `needle in s`. -/
def strHas (needle s : String) : Bool := occursIn needle.data s.data

/-- `any(kw in s for kw in kws)`. -/
def anyHas (kws : List String) (s : String) : Bool := kws.any (fun kw => strHas kw s)

/-- The whitespace class of Python's `str.split` / `str.strip`. -/
def pyIsSpace (c : Char) : Bool :=
  c == ' ' || c == '\t' || c == '\n' || c == '\x0d' || c == '\x0b' || c == '\x0c'

/-- Python's `s.strip()`: leading and trailing whitespace removed. -/
def pyStrip (s : String) : String :=
  ⟨((s.data.dropWhile pyIsSpace).reverse.dropWhile pyIsSpace).reverse⟩

/-- Python's `s.lower()` (ASCII case mapping). -/
def pyLower (s : String) : String := ⟨s.data.map Char.toLower⟩

/-- Python's `s.upper()` (ASCII case mapping). -/
def pyUpper (s : String) : String := ⟨s.data.map Char.toUpper⟩

/-- Python's `len(s)`: the number of characters. -/
def pyLen (s : String) : Nat := s.data.length

/-- Python's `s[:n]`: the first `n` characters. -/
def pyTake (s : String) (n : Nat) : String := ⟨s.data.take n⟩

/-- Splitting a character list on a separator character, keeping empty
pieces — the semantics of Python's `s.split('\n')`. -/
def splitOnChar (sep : Char) : List Char → List (List Char)
  | [] => [[]]
  | c :: rest =>
    match splitOnChar sep rest, c == sep with
    | r, true => [] :: r
    | [], false => [[c]]
    | h :: t, false => (c :: h) :: t

/-- Python's `s.split('\n')`. -/
def pySplitNl (s : String) : List String := (splitOnChar '\n' s.data).map String.mk

/-- Python's `''.join(s.split())`: the string with every whitespace
character removed. -/
def removeWhitespace (s : String) : String := ⟨s.data.filter (fun c => !pyIsSpace c)⟩

/-- `''.join(s.split()).lower()`: whitespace stripped, then lowercased. -/
def normalizeCode (s : String) : String := pyLower (removeWhitespace s)

/-- `[line for line in code.strip().split('\n') if line.strip() and not
line.strip().startswith(marker)]`: the non-blank, non-comment lines of the
submission, for the language's line-comment marker. -/
def noncommentLines (marker code : String) : List String :=
  (pySplitNl (pyStrip code)).filter
    (fun line => !(pyStrip line).data.isEmpty &&
      !startsWithChars marker.data (pyStrip line).data)

/-! ## Progress ledger (`apps/portfolio/models.py`) -/

/-- `UserProgress` record: XP/level, legacy points, streak bookkeeping and
the completed-video / completed-exercise sets (modelled by id). -/
structure UserProgress where
  xp : Int := 0
  level : Int := 1
  total_points : Int := 0
  streak_days : Int := 0
  last_activity_date : Option Int := none
  completed_videos : List Nat := []
  completed_exercises : List Nat := []
  deriving Repr, DecidableEq

/-- `level_thresholds = [0, 100, 300, 700, 1500, 3000, 6000, 10000]`. -/
def level_thresholds : List Int := [0, 100, 300, 700, 1500, 3000, 6000, 10000]

/-- The level-recomputation sweep of `add_xp`: `for level, threshold in
enumerate(level_thresholds, start=1): if xp >= threshold: level := level`. -/
def update_level (xp : Int) (init : Int) : Int :=
  level_thresholds.enum.foldl
    (fun lv it => if xp ≥ it.2 then (it.1 : Int) + 1 else lv) init

/-- `UserProgress.add_xp`: add the points to both `xp` and `total_points`,
then sweep the enumerated threshold table, overwriting `level` with
`index + 1` for every threshold not exceeding the new XP. -/
def add_xp (p : UserProgress) (points : Int) : UserProgress :=
  let xp := p.xp + points
  let total_points := p.total_points + points
  let level := update_level xp p.level
  { p with xp := xp, total_points := total_points, level := level }

/-- The threshold unlocking level `n`, read from the table (`thresholds`
entry `n - 1` for levels 1..8). -/
def threshold (n : Int) : Int := level_thresholds.getD (n - 1).toNat 0

/-- `UserProgress.check_streak`, with `today` passed explicitly as a day
number: delta of exactly 1 increments the streak, delta greater than 1
resets it to 1, same day leaves it unchanged, no prior date initializes it
to 1; the last-activity date is always stamped to today. -/
def check_streak (p : UserProgress) (today : Int) : UserProgress :=
  let streak_days :=
    match p.last_activity_date with
    | some last =>
      let delta := today - last
      if delta = 1 then p.streak_days + 1
      else if delta > 1 then 1
      else p.streak_days
    | none => 1
  { p with streak_days := streak_days, last_activity_date := some today }

/-- `UserCourseProgress` record (completed course items modelled by id,
timestamps as integers). -/
structure UserCourseProgress where
  completed_items : List Nat := []
  is_started : Bool := false
  is_completed : Bool := false
  completion_percentage : Int := 0
  started_at : Option Int := none
  completed_at : Option Int := none
  deriving Repr, DecidableEq

/-- `UserCourseProgress.calculate_progress`, with the course's total item
count and the current time passed explicitly.  `int((completed / total) *
100)` is floor division for non-negative counts, embedded as integer
division. -/
def calculate_progress (p : UserCourseProgress) (total_items : Nat) (now : Int) :
    UserCourseProgress :=
  if total_items = 0 then { p with completion_percentage := 0 }
  else
    let completed_count := p.completed_items.length
    let pct : Int := (completed_count : Int) * 100 / (total_items : Int)
    let p2 := { p with completion_percentage := pct }
    if pct = 100 ∧ p2.is_completed = false then
      { p2 with is_completed := true, completed_at := some now }
    else p2

/-! ## Video completion endpoint (`AcademyVideoViewSet.mark_completed`) -/

/-- Response of the `mark_completed` endpoint. -/
structure MarkResponse where
  message : String
  points : Option Int := none
  deriving Repr, DecidableEq

/-- `mark_completed`: if the video is not yet in the completed set, add it
and award 10 `total_points`; otherwise report it as already completed and
change nothing. -/
def mark_completed (progress : UserProgress) (video : Nat) : UserProgress × MarkResponse :=
  if video ∈ progress.completed_videos then
    (progress, { message := "Video already completed" })
  else
    let progress' := { progress with
      completed_videos := progress.completed_videos ++ [video],
      total_points := progress.total_points + 10 }
    (progress', { message := "Video marked as completed", points := some progress'.total_points })

/-! ## AI grader fallback (`services/gemini_service.py`) -/

/-- The verdict shape produced by `GeminiService.evaluate_code` and by its
local fallback `_basic_validation`. -/
structure AIResult where
  is_correct : Bool
  score : Int := 0
  feedback : String := ""
  suggestions : String := ""
  accepts_alternative : Bool := false
  reasoning : String := ""
  deriving Repr, DecidableEq

/-- `GeminiService._calculate_similarity`: the count of positions at which
the two strings hold identical characters, divided by the longer length;
0 when either string is empty.  Python float division is embedded as exact
division in `ℚ`. -/
def calculate_similarity (text1 text2 : String) : ℚ :=
  if text1.data.isEmpty || text2.data.isEmpty then 0
  else
    let common := ((text1.data.zip text2.data).filter (fun p => p.1 == p.2)).length
    let max_len := max (pyLen text1) (pyLen text2)
    if max_len > 0 then (common : ℚ) / (max_len : ℚ) else 0

/-- Embedding of Python's `f""\x7bx:.2f\x7d""` for a ratio in `[0, 1]`:
round to the nearest hundredth and print with two decimals. -/
def fmtRatio (q : ℚ) : String :=
  let n : Int := ⌊q * 100 + 1 / 2⌋
  if n ≥ 100 then "1.00"
  else if n ≥ 10 then "0." ++ toString n
  else "0.0" ++ toString n

/-- `GeminiService._basic_validation`: normalize both code strings
(whitespace removed, lowercased); reject submissions under 10 characters;
otherwise accept exactly when the positional similarity ratio against the
normalized reference exceeds 0.7, reporting the ratio in the reasoning. -/
def basic_validation (submitted_code solution_code : String) : AIResult :=
  let submitted_clean := normalizeCode submitted_code
  let solution_clean := normalizeCode solution_code
  if pyLen submitted_clean < 10 then
    { is_correct := false, score := 0,
      feedback := "Code too short. Please write a complete solution.",
      suggestions := "Write more code based on the instructions.",
      accepts_alternative := false,
      reasoning := "Code length insufficient" }
  else
    let similarity := calculate_similarity submitted_clean solution_clean
    if similarity > 0.7 then
      { is_correct := true, score := ⌊similarity * 100⌋,
        feedback := "Your solution looks correct!",
        suggestions := "",
        accepts_alternative := true,
        reasoning := "Similarity: " ++ fmtRatio similarity }
    else
      { is_correct := false, score := ⌊similarity * 100⌋,
        feedback := "Your solution needs improvement.",
        suggestions := "Compare your code with the expected solution.",
        accepts_alternative := false,
        reasoning := "Similarity too low: " ++ fmtRatio similarity }

/-! ## Heuristic validators (`AcademyExerciseViewSet._validate_*`) -/

/-- `AcademyExercise` fields consumed by the validation pipeline. -/
structure Exercise where
  language : String
  difficulty : String := "easy"
  instructions : String := ""
  solution_code : String
  deriving Repr, DecidableEq

/-- The result dictionary produced by the validators and the orchestrator;
keys absent from a given branch are modelled by their downstream defaults
(`""` / `none`). -/
structure ValidationResult where
  is_correct : Bool
  message : String := ""
  hint : String := ""
  feedback : String := ""
  ai_score : Option Int := none
  deriving Repr, DecidableEq

/-- `\w` of the regex `<(\w+)`. -/
def isWordChar (c : Char) : Bool := c.isAlphanum || c == '_'

/-- `re.findall(r'<(\w+)', s)`: every maximal nonempty word-character run
directly preceded by `<`.  (Continuing the scan right after the `<` is
equivalent to continuing after the match, since a tag contains no `<`.) -/
def extractTags : List Char → List String
  | [] => []
  | c :: rest =>
    if c == '<' then
      match rest.takeWhile isWordChar with
      | [] => extractTags rest
      | tag => String.mk tag :: extractTags rest
    else extractTags rest

/-- `_validate_html_css`: the submission's tag set must contain the
reference solution's tag set up to two tolerated omissions. -/
def validate_html_css (exercise : Exercise) (code : String) : ValidationResult :=
  let code_lower := pyLower code
  let solution_lower := pyLower exercise.solution_code
  let solution_tags := (extractTags solution_lower.data).dedup
  let submitted_tags := extractTags code_lower.data
  let missing_tags := solution_tags.filter (fun t => !submitted_tags.contains t)
  if missing_tags.length = 0 then
    { is_correct := true,
      message := "✅ Parfait! Tous les éléments requis sont présents!",
      feedback := "Votre structure HTML est correcte." }
  else if missing_tags.length ≤ 2 then
    { is_correct := true,
      message := "✅ Bien! Solution acceptée avec une approche différente.",
      feedback := "Note: Vous pourriez aussi utiliser: " ++ String.intercalate ", " missing_tags }
  else
    { is_correct := false,
      message := "Il manque des éléments importants",
      hint := "Essayez d\x27ajouter: " ++ String.intercalate ", " (missing_tags.take 3) }

/-- `_validate_python`: feature requirements (function, loop, conditional,
print) are derived from the reference solution; at least 2 non-comment
lines and some logic keyword are required. -/
def validate_python (exercise : Exercise) (code : String) : ValidationResult :=
  let has_function := strHas "def " code
  let has_logic := anyHas ["if", "for", "while", "return", "print"] code
  let solution_lower := pyLower exercise.solution_code
  let code_lower := pyLower code
  let solution_has_function := strHas "def " exercise.solution_code
  let solution_has_print := strHas "print" solution_lower
  let solution_has_loop := anyHas ["for ", "while "] solution_lower
  let solution_has_conditional := strHas "if " solution_lower
  let code_lines := noncommentLines "#" code
  if code_lines.length < 2 then
    { is_correct := false,
      message := "❌ Votre code est trop court",
      hint := "Écrivez une solution plus complète (au moins 2 lignes)",
      feedback := "Votre code doit contenir au moins quelques lignes de logique." }
  else if solution_has_function && !has_function then
    { is_correct := false,
      message := "❌ Votre code doit contenir une fonction",
      hint := "La solution attendue utilise une fonction. Utilisez def nom_fonction():",
      feedback := "Définissez une fonction avec def." }
  else if solution_has_loop && !anyHas ["for ", "while "] code_lower then
    { is_correct := false,
      message := "❌ Votre code doit contenir une boucle",
      hint := "Utilisez for ou while pour créer une boucle",
      feedback := "La solution attendue utilise une boucle." }
  else if solution_has_conditional && !strHas "if " code_lower then
    { is_correct := false,
      message := "❌ Votre code doit contenir une condition",
      hint := "Utilisez if pour ajouter une logique conditionnelle",
      feedback := "La solution attendue utilise une condition if." }
  else if solution_has_print && !strHas "print" code_lower then
    { is_correct := false,
      message := "❌ Votre code doit afficher quelque chose",
      hint := "Utilisez print() pour afficher le résultat",
      feedback := "La solution attendue utilise print()." }
  else if has_logic ∧ code_lines.length ≥ 2 then
    { is_correct := true,
      message := "✅ Excellent! Votre solution Python est valide!",
      feedback := "Votre code semble correct et bien structuré." }
  else
    { is_correct := false,
      message := "❌ La solution semble incomplète",
      hint := "Vérifiez que vous avez implémenté toute la logique nécessaire",
      feedback := "Essayez d\x27ajouter plus de code ou de logique." }

/-- `_validate_javascript`: like the Python validator but with JS feature
classes, tolerating browser-API usage. -/
def validate_javascript (exercise : Exercise) (code : String) : ValidationResult :=
  let solution_lower := pyLower exercise.solution_code
  let code_lower := pyLower code
  let has_function := anyHas ["function", "=>", "const", "let", "var"] code
  let has_logic := anyHas ["if", "for", "while", "return", "console.log", "alert", "prompt"] code
  let has_array_methods := anyHas [".map", ".filter", ".reduce", ".forEach"] code
  let solution_has_function := anyHas ["function", "=>"] exercise.solution_code
  let solution_has_loop := anyHas ["for", "while", ".map", ".foreach"] solution_lower
  let solution_has_conditional := strHas "if" solution_lower
  let uses_browser_apis := anyHas ["alert", "prompt", "confirm", "document.", "window."] code_lower
  let code_lines := noncommentLines "//" code
  if solution_has_function && !has_function then
    { is_correct := false,
      message := "❌ Votre code doit contenir une fonction",
      hint := "La solution attendue utilise une fonction. Définissez une fonction.",
      feedback := "Utilisez function ou => pour créer une fonction." }
  else if solution_has_loop &&
      !anyHas ["for", "while", ".map", ".foreach", ".filter", ".reduce"] code_lower then
    { is_correct := false,
      message := "❌ Votre code doit contenir une boucle ou une méthode de tableau",
      hint := "Utilisez for, while, ou une méthode comme .map(), .forEach()",
      feedback := "La solution attendue utilise une itération." }
  else if solution_has_conditional && !strHas "if" code_lower then
    { is_correct := false,
      message := "❌ Votre code doit contenir une condition",
      hint := "Utilisez if pour ajouter une logique conditionnelle",
      feedback := "La solution attendue utilise une condition if." }
  else if code_lines.length < 2 then
    { is_correct := false,
      message := "❌ Votre code est trop court",
      hint := "Écrivez une solution plus complète",
      feedback := "Votre code doit contenir au moins quelques lignes de logique." }
  else if (has_function || has_logic || has_array_methods) ∧ code_lines.length ≥ 2 then
    { is_correct := true,
      message := "✅ Excellent! Votre solution JavaScript est valide!",
      feedback := "Votre code JavaScript semble correct et bien structuré." ++
        (if uses_browser_apis then
          " ⚠️ Note: Utilise des APIs navigateur (alert, prompt, etc.) - normal pour du code client."
        else "") }
  else
    { is_correct := false,
      message := "❌ La solution JavaScript semble incomplète",
      hint := "Vérifiez que vous avez implémenté toute la logique nécessaire",
      feedback := "Essayez d\x27ajouter plus de code ou de logique." }

/-- `_validate_cpp`: requires `#include`, mirrors `main`/`cout`/loop usage
of the reference, and at least 3 non-comment lines. -/
def validate_cpp (exercise : Exercise) (code : String) : ValidationResult :=
  let has_includes := strHas "#include" code
  let has_main := strHas "int main" code
  let solution_lower := pyLower exercise.solution_code
  let code_lower := pyLower code
  let solution_has_main := strHas "int main" solution_lower
  let solution_has_cout := strHas "cout" solution_lower
  let solution_has_loop := anyHas ["for", "while"] solution_lower
  let code_lines := noncommentLines "//" code
  if code_lines.length < 3 then
    { is_correct := false,
      message := "❌ Votre code est trop court",
      hint := "Un programme C++ nécessite au moins #include, main, et de la logique",
      feedback := "Écrivez un programme C++ complet." }
  else if !has_includes then
    { is_correct := false,
      message := "❌ Votre code doit inclure des headers",
      hint := "Ajoutez #include <iostream> ou d\x27autres headers nécessaires",
      feedback := "Les programmes C++ commencent par des #include." }
  else if solution_has_main && !has_main then
    { is_correct := false,
      message := "❌ Votre code doit contenir la fonction main",
      hint := "Ajoutez int main() \x7b ... \x7d",
      feedback := "La fonction main est le point d\x27entrée du programme." }
  else if solution_has_cout && !strHas "cout" code_lower then
    { is_correct := false,
      message := "❌ Votre code doit afficher quelque chose",
      hint := "Utilisez cout << pour afficher le résultat",
      feedback := "La solution attendue utilise cout." }
  else if solution_has_loop && !anyHas ["for", "while"] code_lower then
    { is_correct := false,
      message := "❌ Votre code doit contenir une boucle",
      hint := "Utilisez for ou while",
      feedback := "La solution attendue utilise une boucle." }
  else if (has_includes && (!solution_has_main || has_main) &&
      (!solution_has_cout || strHas "cout" code_lower) &&
      (!solution_has_loop || anyHas ["for", "while"] code_lower)) ∧ code_lines.length ≥ 3 then
    { is_correct := true,
      message := "✅ Excellent! Votre solution C++ est valide!",
      feedback := "Votre code C++ semble correct et bien structuré." }
  else
    { is_correct := false,
      message := "❌ La solution C++ semble incomplète",
      hint := "Vérifiez que vous avez inclus les headers nécessaires et implémenté la logique",
      feedback := "Essayez d\x27ajouter les includes et la fonction main." }

/-- `_validate_java`: requires a class, mirrors `main`/`System.out`/loop
usage of the reference, and at least 3 non-comment lines. -/
def validate_java (exercise : Exercise) (code : String) : ValidationResult :=
  let has_class := strHas "class" code
  let has_main := strHas "public static void main" code
  let solution_lower := pyLower exercise.solution_code
  let code_lower := pyLower code
  let solution_has_main := strHas "public static void main" solution_lower
  let solution_has_sysout := strHas "system.out" solution_lower
  let solution_has_loop := anyHas ["for", "while"] solution_lower
  let code_lines := noncommentLines "//" code
  if code_lines.length < 3 then
    { is_correct := false,
      message := "❌ Votre code est trop court",
      hint := "Un programme Java nécessite au moins une classe, une méthode, et de la logique",
      feedback := "Écrivez un programme Java complet." }
  else if !has_class then
    { is_correct := false,
      message := "❌ Votre code doit contenir une classe",
      hint := "Ajoutez public class NomClasse \x7b ... \x7d",
      feedback := "Les programmes Java doivent être dans une classe." }
  else if solution_has_main && !has_main then
    { is_correct := false,
      message := "❌ Votre code doit contenir la méthode main",
      hint := "Ajoutez public static void main(String[] args) \x7b ... \x7d",
      feedback := "La méthode main est le point d\x27entrée du programme." }
  else if solution_has_sysout && !strHas "system.out" code_lower then
    { is_correct := false,
      message := "❌ Votre code doit afficher quelque chose",
      hint := "Utilisez System.out.println() pour afficher le résultat",
      feedback := "La solution attendue utilise System.out." }
  else if solution_has_loop && !anyHas ["for", "while"] code_lower then
    { is_correct := false,
      message := "❌ Votre code doit contenir une boucle",
      hint := "Utilisez for ou while",
      feedback := "La solution attendue utilise une boucle." }
  else if (has_class && (!solution_has_main || has_main) &&
      (!solution_has_sysout || strHas "system.out" code_lower) &&
      (!solution_has_loop || anyHas ["for", "while"] code_lower)) ∧ code_lines.length ≥ 3 then
    { is_correct := true,
      message := "✅ Excellent! Votre solution Java est valide!",
      feedback := "Votre code Java semble correct et bien structuré." }
  else
    { is_correct := false,
      message := "❌ La solution Java semble incomplète",
      hint := "Vérifiez que vous avez créé une classe et implémenté la logique",
      feedback := "Essayez d\x27ajouter une classe et des méthodes." }

/-- `_validate_c`: requires `#include`, mirrors `main`/`printf`/loop usage
of the reference, and at least 3 non-comment lines. -/
def validate_c (exercise : Exercise) (code : String) : ValidationResult :=
  let has_includes := strHas "#include" code
  let has_main := strHas "int main" code
  let solution_lower := pyLower exercise.solution_code
  let code_lower := pyLower code
  let solution_has_main := strHas "int main" solution_lower
  let solution_has_printf := strHas "printf" solution_lower
  let solution_has_loop := anyHas ["for", "while"] solution_lower
  let code_lines := noncommentLines "//" code
  if code_lines.length < 3 then
    { is_correct := false,
      message := "❌ Votre code est trop court",
      hint := "Un programme C nécessite au moins #include, main, et de la logique",
      feedback := "Écrivez un programme C complet." }
  else if !has_includes then
    { is_correct := false,
      message := "❌ Votre code doit inclure des headers",
      hint := "Ajoutez #include <stdio.h> ou d\x27autres headers nécessaires",
      feedback := "Les programmes C commencent par des #include." }
  else if solution_has_main && !has_main then
    { is_correct := false,
      message := "❌ Votre code doit contenir la fonction main",
      hint := "Ajoutez int main() \x7b ... \x7d",
      feedback := "La fonction main est le point d\x27entrée du programme." }
  else if solution_has_printf && !strHas "printf" code_lower then
    { is_correct := false,
      message := "❌ Votre code doit afficher quelque chose",
      hint := "Utilisez printf() pour afficher le résultat",
      feedback := "La solution attendue utilise printf()." }
  else if solution_has_loop && !anyHas ["for", "while"] code_lower then
    { is_correct := false,
      message := "❌ Votre code doit contenir une boucle",
      hint := "Utilisez for ou while",
      feedback := "La solution attendue utilise une boucle." }
  else if (has_includes && (!solution_has_main || has_main) &&
      (!solution_has_printf || strHas "printf" code_lower) &&
      (!solution_has_loop || anyHas ["for", "while"] code_lower)) ∧ code_lines.length ≥ 3 then
    { is_correct := true,
      message := "✅ Excellent! Votre solution C est valide!",
      feedback := "Votre code C semble correct et bien structuré." }
  else
    { is_correct := false,
      message := "❌ La solution C semble incomplète",
      hint := "Vérifiez que vous avez inclus les headers nécessaires et implémenté la logique",
      feedback := "Essayez d\x27ajouter les includes et la fonction main." }

/-- `_validate_sql`: requires some DML/DDL keyword and mirrors the
reference's use of `SELECT`/`FROM`/`WHERE`/`JOIN` (case-insensitive via
uppercasing). -/
def validate_sql (exercise : Exercise) (code : String) : ValidationResult :=
  let code_upper := pyUpper code
  let solution_upper := pyUpper exercise.solution_code
  let has_select := strHas "SELECT" code_upper
  let has_from := strHas "FROM" code_upper
  let has_where := strHas "WHERE" code_upper
  let has_insert := strHas "INSERT" code_upper
  let has_update := strHas "UPDATE" code_upper
  let has_delete := strHas "DELETE" code_upper
  let has_create := strHas "CREATE" code_upper
  let has_join := strHas "JOIN" code_upper
  let solution_has_select := strHas "SELECT" solution_upper
  let solution_has_where := strHas "WHERE" solution_upper
  let solution_has_join := strHas "JOIN" solution_upper
  let has_sql_keyword := has_select || has_insert || has_update || has_delete || has_create
  if !has_sql_keyword then
    { is_correct := false,
      message := "❌ Votre code doit contenir une requête SQL",
      hint := "Utilisez SELECT, INSERT, UPDATE, DELETE, ou CREATE",
      feedback := "Écrivez une requête SQL valide." }
  else if solution_has_select && !has_select then
    { is_correct := false,
      message := "❌ Votre requête doit utiliser SELECT",
      hint := "La solution attendue utilise SELECT",
      feedback := "Utilisez SELECT pour interroger les données." }
  else if solution_has_select && has_select && strHas "FROM" solution_upper && !has_from then
    { is_correct := false,
      message := "❌ Votre requête SELECT doit inclure FROM",
      hint := "Spécifiez la table avec FROM nom_table",
      feedback := "SELECT nécessite FROM pour spécifier la source." }
  else if solution_has_where && !has_where then
    { is_correct := false,
      message := "❌ Votre requête doit inclure une clause WHERE",
      hint := "Ajoutez WHERE pour filtrer les résultats",
      feedback := "La solution attendue utilise WHERE." }
  else if solution_has_join && !has_join then
    { is_correct := false,
      message := "❌ Votre requête doit inclure un JOIN",
      hint := "Utilisez JOIN pour combiner des tables",
      feedback := "La solution attendue utilise JOIN." }
  else if (has_sql_keyword && (!solution_has_select || has_select) &&
      (!solution_has_where || has_where) && (!solution_has_join || has_join) &&
      (!(solution_has_select && strHas "FROM" solution_upper) || has_from)) ∧
      pyLen (pyStrip code) > 10 then
    { is_correct := true,
      message := "✅ Excellent! Votre requête SQL est valide!",
      feedback := "Votre requête SQL semble correcte." }
  else
    { is_correct := false,
      message := "❌ La requête SQL semble incomplète",
      hint := "Vérifiez que vous avez utilisé les bons mots-clés SQL (SELECT, FROM, WHERE, etc.)",
      feedback := "Essayez d\x27écrire une requête SQL complète." }

/-- `_validate_generic`: whitespace-stripped lowercase comparison with a
positional similarity threshold, the ratio taken against the reference
solution's length. -/
def validate_generic (exercise : Exercise) (code : String) : ValidationResult :=
  let submitted_clean := normalizeCode code
  let solution_clean := normalizeCode exercise.solution_code
  if pyLen submitted_clean < 15 then
    { is_correct := false,
      message := "❌ Votre code est trop court",
      hint := "Écrivez une solution plus complète",
      feedback := "Votre code doit contenir au moins quelques lignes." }
  else
    let common_chars :=
      ((submitted_clean.data.zip solution_clean.data).filter (fun p => p.1 == p.2)).length
    let similarity : ℚ := (common_chars : ℚ) / (max (pyLen solution_clean) 1 : ℚ)
    if similarity > 0.7 then
      { is_correct := true,
        message := "✅ Solution acceptée!",
        feedback := "Votre approche semble valide." }
    else if similarity > 0.5 then
      { is_correct := false,
        message := "❌ Votre solution est proche mais pas tout à fait correcte",
        hint := "Vérifiez bien la logique et comparez avec les instructions",
        feedback := "Similarité: " ++ toString ⌊similarity * 100⌋ ++ "%. Essayez encore!" }
    else
      { is_correct := false,
        message := "❌ Essayez encore",
        hint := "Relisez les instructions et comparez avec l\x27exemple",
        feedback := "Votre solution semble très différente de ce qui est attendu." }

/-! ## Submission orchestrator (`AcademyExerciseViewSet`) -/

/-- The normalized Judge0 execution result consumed by the orchestrator
(`success`, `stdout`, `stderr`, `compile_output`, absent values already
normalized to empty strings). -/
structure ExecutionResult where
  success : Bool
  stdout : String := ""
  stderr : String := ""
  compile_output : String := ""
  deriving Repr, DecidableEq

/-- `_validate_solution_intelligent`: length preflight, then string-keyed
dispatch on the lowercased language tag to the per-language validator. -/
def validate_solution_intelligent (exercise : Exercise) (submitted_code : String) :
    ValidationResult :=
  if submitted_code = "" ∨ pyLen (pyStrip submitted_code) < 5 then
    { is_correct := false,
      message := "❌ Code trop court",
      hint := "Veuillez écrire une solution complète",
      feedback := "Votre code doit contenir au moins quelques lignes." }
  else
    let language := pyLower exercise.language
    if ["html", "css", "xml"].contains language then validate_html_css exercise submitted_code
    else if ["javascript", "js", "typescript"].contains language then
      validate_javascript exercise submitted_code
    else if language = "python" then validate_python exercise submitted_code
    else if ["c++", "cpp"].contains language then validate_cpp exercise submitted_code
    else if language = "java" then validate_java exercise submitted_code
    else if language = "c" then validate_c exercise submitted_code
    else if language = "sql" then validate_sql exercise submitted_code
    else validate_generic exercise submitted_code

/-- The browser-only API names whose appearance in a JavaScript stderr is
treated as expected. -/
def browser_apis : List String :=
  ["alert", "prompt", "confirm", "document", "window", "console", "localStorage"]

/-- `_validate_with_ai_and_execution`.  The external collaborators are
passed explicitly: `execResult` is the Judge0 outcome (`none` models an
exception in the execution call), `aiAvailable` models
`gemini.is_available()`, and `aiResult` the AI verdict (`none` models an
exception during AI evaluation).  Mirrors the source: compile errors and
non-browser JavaScript runtime errors reject immediately; a runtime error
in any other language only sets a flag that is never read again, so
control falls through to the AI stage and then to the heuristics. -/
def validate_with_ai_and_execution (exercise : Exercise) (submitted_code : String)
    (execResult : Option ExecutionResult) (aiAvailable : Bool) (aiResult : Option AIResult) :
    ValidationResult :=
  if submitted_code = "" ∨ pyLen (pyStrip submitted_code) < 5 then
    { is_correct := false,
      message := "❌ Code trop court",
      hint := "Veuillez écrire une solution complète",
      feedback := "Votre code doit contenir au moins quelques lignes." }
  else
    -- Steps 2 and 3: AI evaluation with the captured execution output,
    -- falling back to the heuristic validators.
    let aiStage : Option String → ValidationResult := fun _execution_output =>
      if aiAvailable then
        match aiResult with
        | some ai =>
          { is_correct := ai.is_correct,
            message := (if ai.is_correct then "✅ " else "❌ ") ++ ai.feedback,
            hint := ai.suggestions,
            feedback := pyTake ai.reasoning 300,
            ai_score := some ai.score }
        | none => validate_solution_intelligent exercise submitted_code
      else validate_solution_intelligent exercise submitted_code
    match execResult with
    | none => aiStage none
    | some result =>
      if result.success then aiStage (some result.stdout)
      else if !result.compile_output.data.isEmpty then
        { is_correct := false,
          message := "❌ Erreur de compilation",
          hint := "Vérifiez la syntaxe de votre code",
          feedback := "Erreur: " ++ pyTake result.compile_output 200 }
      else if !result.stderr.data.isEmpty then
        if ["javascript", "js", "typescript"].contains (pyLower exercise.language) then
          if browser_apis.any (fun api => strHas api result.stderr) then
            aiStage (some ("⚠️ Code utilise des APIs navigateur: " ++ pyTake result.stderr 100))
          else
            { is_correct := false,
              message := "❌ Erreur d\x27exécution",
              hint := "Vérifiez la logique de votre code",
              feedback := "Erreur: " ++ pyTake result.stderr 200 }
        else
          -- `has_runtime_error = True` in the source; the flag is never
          -- read afterwards, so validation continues.
          aiStage none
      else aiStage none

/-- The caller-facing submission response; optional keys are `none` when
the source dictionary omits them. -/
structure SubmitResponse where
  success : Bool
  message : String
  points : Option Int := none
  total_points : Option Int := none
  feedback : Option String := none
  hint : Option String := none
  already_completed : Option Bool := none
  current_answer_incorrect : Option Bool := none
  deriving Repr, DecidableEq

/-- `points_map.get(exercise.difficulty, 20)`. -/
def points_map (difficulty : String) : Int :=
  if difficulty = "easy" then 20
  else if difficulty = "medium" then 30
  else if difficulty = "hard" then 50
  else 20

/-- The `submit` action: run the validation pipeline; if the exercise is
already completed, report the verdict with `points = 0` and the preserved
completion status without touching the ledger; otherwise award the
difficulty-tier points exactly once on a correct verdict. -/
def submit (progress : UserProgress) (exerciseId : Nat) (exercise : Exercise)
    (code : String) (execResult : Option ExecutionResult) (aiAvailable : Bool)
    (aiResult : Option AIResult) : SubmitResponse × UserProgress :=
  let is_already_completed := exerciseId ∈ progress.completed_exercises
  let validation_result :=
    validate_with_ai_and_execution exercise code execResult aiAvailable aiResult
  if is_already_completed then
    if validation_result.is_correct then
      ({ success := true,
         message := "✅ Exercice déjà complété - Votre nouvelle réponse est également correcte!",
         points := some 0,
         total_points := some progress.total_points,
         feedback := some "Vous avez déjà validé cet exercice. Continuez sur le suivant!",
         already_completed := some true }, progress)
    else
      ({ success := true,
         message := "✅ Exercice déjà complété - Mais votre nouvelle réponse est incorrecte",
         points := some 0,
         total_points := some progress.total_points,
         feedback := some ("Vous avez déjà validé cet exercice avec une bonne réponse. " ++
           "Votre tentative actuelle est incorrecte, mais l\x27exercice reste complété."),
         hint := some validation_result.hint,
         already_completed := some true,
         current_answer_incorrect := some true }, progress)
  else if validation_result.is_correct then
    let points := points_map exercise.difficulty
    let progress' := { progress with
      completed_exercises := progress.completed_exercises ++ [exerciseId],
      total_points := progress.total_points + points }
    ({ success := true,
       message := validation_result.message,
       points := some points,
       total_points := some progress'.total_points,
       feedback := some validation_result.feedback }, progress')
  else
    ({ success := false,
       message := validation_result.message,
       hint := some validation_result.hint,
       feedback := some validation_result.feedback }, progress)

/-! ## Supporting lemmas -/

set_option maxHeartbeats 1000000 in
/-- Closed form of the level sweep for non-negative XP: the nested
comparison against the eight thresholds. -/
lemma update_level_eq (x init : Int) (hx : 0 ≤ x) :
    update_level x init =
      if x ≥ 10000 then 8 else if x ≥ 6000 then 7 else if x ≥ 3000 then 6
      else if x ≥ 1500 then 5 else if x ≥ 700 then 4 else if x ≥ 300 then 3
      else if x ≥ 100 then 2 else 1 := by
  simp only [update_level, level_thresholds, List.enum, List.enumFrom, List.foldl]
  split_ifs <;> omega

/-- Evaluation of the threshold table at each level. -/
lemma threshold_eval :
    threshold 1 = 0 ∧ threshold 2 = 100 ∧ threshold 3 = 300 ∧ threshold 4 = 700 ∧
    threshold 5 = 1500 ∧ threshold 6 = 3000 ∧ threshold 7 = 6000 ∧ threshold 8 = 10000 := by
  decide

set_option maxHeartbeats 1000000 in
/-- For non-negative XP the sweep lands on the greatest level in 1..8 whose
threshold is met. -/
lemma update_level_isGreatest (x init : Int) (hx : 0 ≤ x) :
    IsGreatest {n : Int | 1 ≤ n ∧ n ≤ 8 ∧ threshold n ≤ x} (update_level x init) := by
  obtain ⟨t1, t2, t3, t4, t5, t6, t7, t8⟩ := threshold_eval
  rw [update_level_eq x init hx]
  constructor
  · split_ifs <;> refine ⟨by norm_num, by norm_num, by omega⟩
  · rintro n ⟨hn1, hn8, hnt⟩
    split_ifs <;> interval_cases n <;> omega

set_option maxHeartbeats 1000000 in
/-- The sweep is monotone in the XP argument for non-negative XP. -/
lemma update_level_mono (x y i j : Int) (hx : 0 ≤ x) (hxy : x ≤ y) :
    update_level x i ≤ update_level y j := by
  rw [update_level_eq x i hx, update_level_eq y j (by omega)]
  split_ifs <;> omega

/-! ## Claim theorems -/

/-- C5: after every call to `add_xp` landing on a non-negative XP total,
the stored level is the largest `n` in 1..8 whose table threshold is at
most the new XP; consequently, awarding a further non-negative amount
never decreases the level. -/
theorem C5_add_xp_level (p : UserProgress) (points q : Int) (h : 0 ≤ p.xp + points) :
    IsGreatest {n : Int | 1 ≤ n ∧ n ≤ 8 ∧ threshold n ≤ p.xp + points}
      (add_xp p points).level ∧
    (0 ≤ q → (add_xp p points).level ≤ (add_xp (add_xp p points) q).level) := by
  constructor
  · simpa [add_xp] using update_level_isGreatest (p.xp + points) p.level h
  · intro hq
    simp only [add_xp]
    exact update_level_mono _ _ _ _ h (by omega)

/-- Witness for C5 at a concrete ledger: 0 XP plus 150 awarded lands on
level 2, and a further award of 200 does not lower it. -/
theorem C5_add_xp_level_witness :
    IsGreatest {n : Int | 1 ≤ n ∧ n ≤ 8 ∧ threshold n ≤ ({ } : UserProgress).xp + 150}
      (add_xp { } 150).level ∧
    (0 ≤ (200 : Int) → (add_xp { } 150).level ≤ (add_xp (add_xp { } 150) 200).level) :=
  C5_add_xp_level { } 150 200 (by decide)

/-- C6: `check_streak` as a function of today and the stored
last-activity date — exactly one day later increments the streak, a gap of
more than one day resets it to 1, the same day leaves it unchanged (so a
second call on one calendar day never changes it), no prior date
initializes it to 1, and the last-activity date is always stamped to
today. -/
theorem C6_check_streak (p : UserProgress) (today : Int) :
    (check_streak p today).last_activity_date = some today ∧
    (p.last_activity_date = some (today - 1) →
      (check_streak p today).streak_days = p.streak_days + 1) ∧
    (∀ last, p.last_activity_date = some last → 1 < today - last →
      (check_streak p today).streak_days = 1) ∧
    (p.last_activity_date = some today → (check_streak p today).streak_days = p.streak_days) ∧
    (p.last_activity_date = none → (check_streak p today).streak_days = 1) ∧
    (check_streak (check_streak p today) today).streak_days =
      (check_streak p today).streak_days := by
  cases hl : p.last_activity_date with
  | none => simp [check_streak, hl]
  | some last =>
    refine ⟨rfl, ?_, ?_, ?_, ?_, ?_⟩
    · intro hd
      obtain rfl : last = today - 1 := Option.some.inj hd
      simp only [check_streak, hl]
      rw [if_pos (by omega)]
    · intro l hll hgap
      obtain rfl : last = l := Option.some.inj hll
      simp only [check_streak, hl]
      rw [if_neg (by omega), if_pos (by omega)]
    · intro hd
      obtain rfl : last = today := Option.some.inj hd
      simp only [check_streak, hl]
      rw [if_neg (by omega), if_neg (by omega)]
    · intro hnone
      exact absurd hnone (by simp)
    · simp only [check_streak, hl]
      rw [if_neg (by omega), if_neg (by omega)]

/-- Witness for C6 at a concrete ledger: last activity yesterday (day 4),
today day 5 — the streak of 3 becomes 4 and the date is stamped. -/
theorem C6_check_streak_witness :
    (check_streak { streak_days := 3, last_activity_date := some 4 } 5).last_activity_date =
      some 5 ∧
    (check_streak { streak_days := 3, last_activity_date := some 4 } 5).streak_days = 3 + 1 :=
  ⟨(C6_check_streak { streak_days := 3, last_activity_date := some 4 } 5).1,
   (C6_check_streak { streak_days := 3, last_activity_date := some 4 } 5).2.1 (by decide)⟩

/-- Integer floor division agrees with the rational floor of
`(c / t) * 100`. -/
lemma int_div_eq_rat_floor (c t : ℕ) :
    ((c : ℤ) * 100 / (t : ℤ)) = ⌊((c : ℚ) / (t : ℚ)) * 100⌋ := by
  have h : ((c : ℚ) / (t : ℚ)) * 100 = (((c : ℤ) * 100 : ℤ) : ℚ) / ((t : ℕ) : ℚ) := by
    push_cast
    ring
  rw [h, Rat.floor_intCast_div_natCast]

/-- C7: every `calculate_progress` call stores
`floor(100 * completed / total)` (0 for an empty course); the completion
flag and timestamp form a one-way latch — stamped the first time the
percentage reaches 100 and never changed or revoked afterwards. -/
theorem C7_calculate_progress (p : UserCourseProgress) (total_items : Nat) (now : Int) :
    ((calculate_progress p total_items now).completion_percentage =
      if total_items = 0 then 0
      else ⌊((p.completed_items.length : ℚ) / (total_items : ℚ)) * 100⌋) ∧
    (p.is_completed = true →
      (calculate_progress p total_items now).is_completed = true ∧
      (calculate_progress p total_items now).completed_at = p.completed_at) ∧
    (p.is_completed = false → total_items ≠ 0 →
      (p.completed_items.length : Int) * 100 / (total_items : Int) = 100 →
      (calculate_progress p total_items now).is_completed = true ∧
      (calculate_progress p total_items now).completed_at = some now) ∧
    (p.is_completed = false →
      ¬(total_items ≠ 0 ∧ (p.completed_items.length : Int) * 100 / (total_items : Int) = 100) →
      (calculate_progress p total_items now).is_completed = false ∧
      (calculate_progress p total_items now).completed_at = p.completed_at) := by
  have hfloor := int_div_eq_rat_floor p.completed_items.length total_items
  simp only [calculate_progress]
  split_ifs with h1 h2
  · exact ⟨by simp [h1], fun hc => ⟨hc, rfl⟩, fun _ hne _ => absurd h1 hne,
      fun hc _ => ⟨hc, rfl⟩⟩
  · refine ⟨hfloor, fun hc => ?_, fun _ _ _ => ⟨rfl, rfl⟩,
      fun _ hn => absurd ⟨h1, h2.1⟩ hn⟩
    rw [h2.2] at hc
    exact absurd hc (by decide)
  · exact ⟨hfloor, fun hc => ⟨hc, rfl⟩,
      fun hc _ h100 => absurd ⟨h100, hc⟩ h2, fun hc _ => ⟨hc, rfl⟩⟩

/-- Witness for C7: a course of 4 items with 2 completed lands on 50
percent without completing; one of 1 item with 1 completed latches. -/
theorem C7_calculate_progress_witness :
    (calculate_progress { completed_items := [1, 2] } 4 99).completion_percentage =
      (if (4 : Nat) = 0 then 0
        else ⌊((([1, 2] : List Nat).length : ℚ) / ((4 : Nat) : ℚ)) * 100⌋) ∧
    (calculate_progress { completed_items := [3] } 1 99).is_completed = true ∧
    (calculate_progress { completed_items := [3] } 1 99).completed_at = some 99 :=
  ⟨(C7_calculate_progress { completed_items := [1, 2] } 4 99).1,
   (C7_calculate_progress { completed_items := [3] } 1 99).2.2.1 rfl (by decide) (by decide)⟩

/-- C8 (amended): marking a not-yet-completed video appends it to the
completed set and adds a flat 10 to `total_points`, leaving the XP counter
and the level untouched (no level recomputation happens); marking an
already-completed video changes nothing. -/
theorem C8_mark_completed (progress : UserProgress) (video : Nat) :
    (video ∉ progress.completed_videos →
      (mark_completed progress video).1.completed_videos =
        progress.completed_videos ++ [video] ∧
      (mark_completed progress video).1.total_points = progress.total_points + 10 ∧
      (mark_completed progress video).1.xp = progress.xp ∧
      (mark_completed progress video).1.level = progress.level ∧
      (mark_completed progress video).2.points = some (progress.total_points + 10)) ∧
    (video ∈ progress.completed_videos → (mark_completed progress video).1 = progress) := by
  constructor
  · intro h
    simp [mark_completed, if_neg h]
  · intro h
    simp only [mark_completed, if_pos h]

/-- Counterexample for C8 as stated: marking a fresh video adds 10 to
`total_points` but the XP counter does not increase by 10 (it stays 0) and
the level is not recomputed. -/
theorem C8_counterexample :
    (mark_completed { } 7).1.xp ≠ ({ } : UserProgress).xp + 10 ∧
    (mark_completed { } 7).1.level = ({ } : UserProgress).level ∧
    (mark_completed { } 7).1.total_points = ({ } : UserProgress).total_points + 10 := by
  decide

/-- Witness for C8 at concrete ledgers: a fresh video is appended with 10
points, an already-completed one changes nothing. -/
theorem C8_mark_completed_witness :
    ((mark_completed { } 7).1.completed_videos = ({ } : UserProgress).completed_videos ++ [7] ∧
      (mark_completed { } 7).1.total_points = ({ } : UserProgress).total_points + 10 ∧
      (mark_completed { } 7).1.xp = ({ } : UserProgress).xp ∧
      (mark_completed { } 7).1.level = ({ } : UserProgress).level ∧
      (mark_completed { } 7).2.points = some (({ } : UserProgress).total_points + 10)) ∧
    (mark_completed { completed_videos := [7] } 7).1 =
      { completed_videos := [7] } :=
  ⟨(C8_mark_completed { } 7).1 (by decide),
   (C8_mark_completed { completed_videos := [7] } 7).2 (by decide)⟩

/-- C4: submitting an exercise already in the user's completed set returns
`points = 0`, `already_completed = true` and the unchanged point total,
leaves the whole ledger untouched, and the exercise stays completed —
whatever the verdict of the new validation run. -/
theorem C4_submit_already_completed (progress : UserProgress) (exerciseId : Nat)
    (exercise : Exercise) (code : String) (execResult : Option ExecutionResult)
    (aiAvailable : Bool) (aiResult : Option AIResult)
    (h : exerciseId ∈ progress.completed_exercises) :
    (submit progress exerciseId exercise code execResult aiAvailable aiResult).1.points =
      some 0 ∧
    (submit progress exerciseId exercise code execResult aiAvailable aiResult).1.already_completed =
      some true ∧
    (submit progress exerciseId exercise code execResult aiAvailable aiResult).1.total_points =
      some progress.total_points ∧
    (submit progress exerciseId exercise code execResult aiAvailable aiResult).2 = progress ∧
    exerciseId ∈
      (submit progress exerciseId exercise code execResult aiAvailable aiResult).2.completed_exercises := by
  simp only [submit, if_pos h]
  split <;> exact ⟨rfl, rfl, rfl, rfl, h⟩

/-- Witness for C4: resubmitting exercise 5 (already completed) with a
failing heuristic run still yields 0 points and an unchanged ledger. -/
theorem C4_submit_already_completed_witness :
    (submit { completed_exercises := [5], total_points := 20 } 5
        { language := "python", solution_code := "print(1)" } "x" none false none).1.points =
      some 0 ∧
    (submit { completed_exercises := [5], total_points := 20 } 5
        { language := "python", solution_code := "print(1)" } "x" none false none).1.already_completed =
      some true ∧
    (submit { completed_exercises := [5], total_points := 20 } 5
        { language := "python", solution_code := "print(1)" } "x" none false none).1.total_points =
      some ({ completed_exercises := [5], total_points := 20 } : UserProgress).total_points ∧
    (submit { completed_exercises := [5], total_points := 20 } 5
        { language := "python", solution_code := "print(1)" } "x" none false none).2 =
      { completed_exercises := [5], total_points := 20 } ∧
    5 ∈ (submit { completed_exercises := [5], total_points := 20 } 5
        { language := "python", solution_code := "print(1)" } "x" none false none).2.completed_exercises :=
  C4_submit_already_completed { completed_exercises := [5], total_points := 20 } 5
    { language := "python", solution_code := "print(1)" } "x" none false none (by decide)

/-- C2: whenever the sandbox reports a failed execution with non-empty
compile output, the orchestrator returns the fixed compile-error rejection
— for every exercise, AI availability and AI verdict alike, so neither the
AI grader nor any heuristic validator influences the outcome. -/
theorem C2_compile_error_rejects (exercise : Exercise) (code : String) (r : ExecutionResult)
    (aiAvailable : Bool) (aiResult : Option AIResult)
    (hcode : ¬(code = "" ∨ pyLen (pyStrip code) < 5))
    (hs : r.success = false) (hc : r.compile_output.data.isEmpty = false) :
    validate_with_ai_and_execution exercise code (some r) aiAvailable aiResult =
      { is_correct := false,
        message := "❌ Erreur de compilation",
        hint := "Vérifiez la syntaxe de votre code",
        feedback := "Erreur: " ++ pyTake r.compile_output 200 } := by
  simp only [validate_with_ai_and_execution, if_neg hcode, hs, hc]
  simp

/-- Witness for C2: a malformed C++ submission with compile diagnostics is
rejected even though the provided AI verdict says correct. -/
theorem C2_compile_error_rejects_witness :
    validate_with_ai_and_execution { language := "c++", solution_code := "int main() \x7b\x7d" }
        "int main( \x7b return 0"
        (some { success := false, compile_output := "error: expected parameter declarator" })
        true (some { is_correct := true, score := 100 }) =
      { is_correct := false,
        message := "❌ Erreur de compilation",
        hint := "Vérifiez la syntaxe de votre code",
        feedback := "Erreur: " ++
          pyTake ("error: expected parameter declarator" : String) 200 } :=
  C2_compile_error_rejects { language := "c++", solution_code := "int main() \x7b\x7d" }
    "int main( \x7b return 0"
    { success := false, compile_output := "error: expected parameter declarator" }
    true (some { is_correct := true, score := 100 }) (by decide) rfl rfl

/-- C1 (code evaluation at the failing input): a Python submission whose
execution ends in a runtime error (non-empty stderr, no compile output) is
not terminally rejected — the AI stage still runs and its accepting
verdict becomes the final one, and with the AI unavailable the heuristic
stage runs instead. -/
theorem C1_runtime_error_reaches_ai :
    (validate_with_ai_and_execution { language := "python", solution_code := "print(1)" }
        "print(1/0)"
        (some { success := false, stderr := "ZeroDivisionError: division by zero" })
        true (some { is_correct := true, score := 95, feedback := "Logic is correct" })).is_correct
      = true ∧
    (validate_with_ai_and_execution { language := "python", solution_code := "print(1)" }
        "print(1/0)"
        (some { success := false, stderr := "ZeroDivisionError: division by zero" })
        true (some { is_correct := true, score := 95, feedback := "Logic is correct" })).message
      = "✅ Logic is correct" ∧
    (validate_with_ai_and_execution { language := "python", solution_code := "print(1)" }
        "print(1/0)"
        (some { success := false, stderr := "ZeroDivisionError: division by zero" })
        false none) =
      validate_solution_intelligent { language := "python", solution_code := "print(1)" }
        "print(1/0)" := by
  refine ⟨by decide, by decide, ?_⟩
  rfl

/-- Counterexample for C3 as stated: the exact one-line reference solution
of the print-hello Python exercise is rejected by the Python heuristic
validator (it requires at least 2 non-comment lines). -/
theorem C3_counterexample :
    (validate_python
        { language := "python", solution_code := "print(\"Hello, World!\")" }
        "print(\"Hello, World!\")").is_correct = false ∧
    (validate_python
        { language := "python", solution_code := "print(\"Hello, World!\")" }
        "print(\"Hello, World!\")").message = "❌ Votre code est trop court" := by
  decide

/-- C3 (amended): a submission identical to the reference solution is
accepted by the Python, C++ and SQL heuristic validators provided the
reference itself meets the validator's absolute gates — Python: at least 2
non-comment lines and a logic keyword; C++: at least 3 non-comment lines,
an `#include` and a literal `int main`; SQL: a DML/DDL keyword and more
than 10 stripped characters.  (One-line references fail these gates and
are rejected, as the counterexample shows.) -/
theorem C3_identical_reference_accepted (ex : Exercise) :
    (2 ≤ (noncommentLines "#" ex.solution_code).length →
      anyHas ["if", "for", "while", "return", "print"] ex.solution_code = true →
      (validate_python ex ex.solution_code).is_correct = true) ∧
    (3 ≤ (noncommentLines "//" ex.solution_code).length →
      strHas "#include" ex.solution_code = true →
      strHas "int main" ex.solution_code = true →
      (validate_cpp ex ex.solution_code).is_correct = true) ∧
    ((strHas "SELECT" (pyUpper ex.solution_code) || strHas "INSERT" (pyUpper ex.solution_code) ||
        strHas "UPDATE" (pyUpper ex.solution_code) || strHas "DELETE" (pyUpper ex.solution_code) ||
        strHas "CREATE" (pyUpper ex.solution_code)) = true →
      10 < pyLen (pyStrip ex.solution_code) →
      (validate_sql ex ex.solution_code).is_correct = true) := by
  refine ⟨fun h2 hlogic => ?_, fun h3 hinc hmain => ?_, fun hkw hlen => ?_⟩
  · simp only [validate_python, Bool.and_not_self]
    rw [if_neg (by omega : ¬ (noncommentLines "#" ex.solution_code).length < 2)]
    simp only [Bool.false_eq_true, if_false]
    rw [if_pos ⟨hlogic, by omega⟩]
  · simp only [validate_cpp, Bool.and_not_self, hinc, hmain, Bool.not_true, Bool.false_and,
      Bool.and_false, Bool.true_and, Bool.and_true, Bool.or_true, Bool.not_or_self]
    rw [if_neg (by omega : ¬ (noncommentLines "//" ex.solution_code).length < 3)]
    simp only [Bool.false_eq_true, if_false, Bool.true_eq_false]
    rw [if_pos ⟨trivial, by omega⟩]
  · simp only [Bool.or_assoc] at hkw
    simp only [validate_sql, Bool.and_not_self, Bool.not_true, Bool.and_assoc,
      Bool.and_false, Bool.false_eq_true, if_false, Bool.not_or_self, Bool.and_true,
      Bool.true_and, Bool.not_and, Bool.or_assoc, Bool.or_true]
    rw [hkw]
    simp [hlen]

/-- Witness for C3: concrete multi-line references submitted verbatim are
accepted by all three validators. -/
theorem C3_identical_reference_accepted_witness :
    (validate_python
        { language := "python", solution_code := "for i in range(3):\n    print(i)" }
        "for i in range(3):\n    print(i)").is_correct = true ∧
    (validate_cpp
        { language := "c++",
          solution_code := "#include <iostream>\nint main() \x7b\n  std::cout << 1;\n\x7d" }
        "#include <iostream>\nint main() \x7b\n  std::cout << 1;\n\x7d").is_correct = true ∧
    (validate_sql
        { language := "sql", solution_code := "SELECT * FROM users WHERE id = 1" }
        "SELECT * FROM users WHERE id = 1").is_correct = true :=
  ⟨(C3_identical_reference_accepted
      { language := "python", solution_code := "for i in range(3):\n    print(i)" }).1
      (by decide) (by decide),
   (C3_identical_reference_accepted
      { language := "c++",
        solution_code := "#include <iostream>\nint main() \x7b\n  std::cout << 1;\n\x7d" }).2.1
      (by decide) (by decide) (by decide),
   (C3_identical_reference_accepted
      { language := "sql", solution_code := "SELECT * FROM users WHERE id = 1" }).2.2
      (by decide) (by decide)⟩

/-- The claim-side positional match ratio: the number of positions
(indices below both lengths) holding identical characters, divided by the
longer string's length. -/
def positionalMatchRatio (a b : String) : ℚ :=
  (((List.range (min (pyLen a) (pyLen b))).filter
      (fun i => a.data.getD i ' ' == b.data.getD i ' ')).length : ℚ) /
    ((max (pyLen a) (pyLen b) : ℕ) : ℚ)

/-- Counting equal pairs along the zip equals counting indices with equal
entries. -/
lemma countEq_zip_eq_range (l1 l2 : List Char) :
    ((l1.zip l2).filter (fun p => p.1 == p.2)).length =
    ((List.range (min l1.length l2.length)).filter
      (fun i => l1.getD i ' ' == l2.getD i ' ')).length := by
  rw [← List.countP_eq_length_filter, ← List.countP_eq_length_filter]
  induction l1 generalizing l2 with
  | nil => simp
  | cons a as ih =>
    cases l2 with
    | nil => simp
    | cons b bs =>
      simp only [List.zip_cons_cons, List.length_cons, Nat.succ_min_succ,
        List.range_succ_eq_map, List.countP_cons, List.countP_map]
      rw [ih bs]
      simp only [List.getD_cons_zero, List.getD_cons_succ]
      refine congrArg₂ (· + ·) (List.countP_congr fun x _ => ?_) rfl
      simp [Function.comp]

/-- The equal-pair count is symmetric in its two lists. -/
lemma countEq_comm (l1 l2 : List Char) :
    ((l1.zip l2).filter (fun p => p.1 == p.2)).length =
    ((l2.zip l1).filter (fun p => p.1 == p.2)).length := by
  rw [← List.countP_eq_length_filter, ← List.countP_eq_length_filter,
    ← List.zip_swap l2 l1, List.countP_map]
  refine List.countP_congr (fun x _ => ?_)
  simp only [Function.comp, Prod.fst_swap, Prod.snd_swap, beq_iff_eq]
  exact eq_comm

/-- A normalized string of length at least 10 is non-empty. -/
lemma normalize_ne_empty (s : String) (hge : 10 ≤ pyLen (normalizeCode s)) :
    (normalizeCode s).data.isEmpty = false := by
  rcases hh : (normalizeCode s).data with _ | _
  · rw [pyLen, hh] at hge
    simp at hge
  · simp [hh]

/-- With a non-empty first argument, `_calculate_similarity` computes
exactly the positional match ratio. -/
lemma calculate_similarity_eq (t1 t2 : String) (h : t1.data.isEmpty = false) :
    calculate_similarity t1 t2 = positionalMatchRatio t1 t2 := by
  by_cases h2 : t2.data.isEmpty
  · have hd : t2.data = [] := List.isEmpty_iff.mp h2
    simp only [calculate_similarity, h2, Bool.or_true, if_true]
    simp only [positionalMatchRatio, pyLen, hd, List.length_nil, Nat.min_zero,
      List.range_zero, List.filter_nil]
    simp
  · have h2f : t2.data.isEmpty = false := by simpa using h2
    have hmax : t1.data.length ⊔ t2.data.length > 0 := by
      have : t1.data ≠ [] := by simpa [List.isEmpty_iff] using h
      have : 0 < t1.data.length := List.length_pos.mpr this
      omega
    simp only [calculate_similarity, h, h2f, Bool.or_self, if_false, Bool.false_eq_true,
      pyLen, positionalMatchRatio]
    rw [if_pos hmax, countEq_zip_eq_range]

/-- `_calculate_similarity` is symmetric in its arguments. -/
lemma calculate_similarity_comm (a b : String) :
    calculate_similarity a b = calculate_similarity b a := by
  simp only [calculate_similarity]
  rw [countEq_comm, Bool.or_comm, Nat.max_comm (pyLen a) (pyLen b)]

/-- `_calculate_similarity` never returns a negative value. -/
lemma calculate_similarity_nonneg (a b : String) : 0 ≤ calculate_similarity a b := by
  simp only [calculate_similarity]
  split_ifs
  · exact le_refl 0
  · positivity
  · exact le_refl 0

/-- `_calculate_similarity` never exceeds 1. -/
lemma calculate_similarity_le_one (a b : String) : calculate_similarity a b ≤ 1 := by
  simp only [calculate_similarity]
  split_ifs with h1 h2
  · exact zero_le_one
  · rw [div_le_one (by exact_mod_cast h2)]
    have hle : ((a.data.zip b.data).filter (fun p => p.1 == p.2)).length ≤
        max (pyLen a) (pyLen b) := by
      calc ((a.data.zip b.data).filter (fun p => p.1 == p.2)).length
          ≤ (a.data.zip b.data).length := List.length_filter_le _ _
        _ = min a.data.length b.data.length := List.length_zip _ _
        _ ≤ max (pyLen a) (pyLen b) := by simp only [pyLen]; omega
    exact_mod_cast hle
  · exact zero_le_one

/-- C9: the local similarity fallback rejects once the normalized
submission (whitespace stripped, lowercased) is under 10 characters;
otherwise it accepts exactly when the positional character-match ratio
against the normalized reference — identical positions divided by the
longer length — exceeds 0.7, and reports the ratio in its reasoning. -/
theorem C9_basic_validation (submitted solution : String) :
    (pyLen (normalizeCode submitted) < 10 →
      (basic_validation submitted solution).is_correct = false) ∧
    (10 ≤ pyLen (normalizeCode submitted) →
      ((basic_validation submitted solution).is_correct = true ↔
        positionalMatchRatio (normalizeCode submitted) (normalizeCode solution) > 0.7) ∧
      (basic_validation submitted solution).reasoning =
        (if positionalMatchRatio (normalizeCode submitted) (normalizeCode solution) > 0.7
          then "Similarity: " else "Similarity too low: ") ++
        fmtRatio (positionalMatchRatio (normalizeCode submitted) (normalizeCode solution))) := by
  constructor
  · intro hlt
    simp only [basic_validation, if_pos hlt]
  · intro hge
    have heq := calculate_similarity_eq (normalizeCode submitted) (normalizeCode solution)
      (normalize_ne_empty submitted hge)
    simp only [basic_validation, if_neg (by omega : ¬ pyLen (normalizeCode submitted) < 10), heq]
    by_cases hsim :
      positionalMatchRatio (normalizeCode submitted) (normalizeCode solution) > 0.7
    · rw [if_pos hsim, if_pos hsim]
      exact ⟨by simpa using hsim, rfl⟩
    · rw [if_neg hsim, if_neg hsim]
      exact ⟨by simpa using hsim, rfl⟩

/-- Witness for C9: a 9-character submission is rejected as too short; a
12-character one is graded by the similarity threshold. -/
theorem C9_basic_validation_witness :
    (basic_validation "shortity" "whatever solution").is_correct = false ∧
    ((basic_validation "abcdefghijkl" "abcdefghijxy").is_correct = true ↔
      positionalMatchRatio (normalizeCode "abcdefghijkl") (normalizeCode "abcdefghijxy") > 0.7) :=
  ⟨(C9_basic_validation "shortity" "whatever solution").1 (by decide),
   ((C9_basic_validation "abcdefghijkl" "abcdefghijxy").2 (by decide)).1⟩

/-- C10 (amended): the similarity function is commutative and stays in
`[0, 1]`, and the fallback's acceptance decision is order-independent
whenever both normalized strings reach the 10-character minimum; the
minimum-length gate tests only the submitted argument, so for shorter
strings the decision does depend on the argument order (see the
counterexample). -/
theorem C10_similarity_commutative (a b : String) :
    0 ≤ calculate_similarity a b ∧ calculate_similarity a b ≤ 1 ∧
    calculate_similarity a b = calculate_similarity b a ∧
    (10 ≤ pyLen (normalizeCode a) → 10 ≤ pyLen (normalizeCode b) →
      (basic_validation a b).is_correct = (basic_validation b a).is_correct) := by
  refine ⟨calculate_similarity_nonneg a b, calculate_similarity_le_one a b,
    calculate_similarity_comm a b, fun h10a h10b => ?_⟩
  simp only [basic_validation, if_neg (by omega : ¬ pyLen (normalizeCode a) < 10),
    if_neg (by omega : ¬ pyLen (normalizeCode b) < 10)]
  rw [apply_ite AIResult.is_correct, apply_ite AIResult.is_correct,
    calculate_similarity_comm (normalizeCode a) (normalizeCode b)]

/-- Counterexample for C10's order-independence as stated: a 9-character
submission against a 12-character reference is rejected (length gate), but
swapping the arguments accepts (similarity 9/12 = 0.75 > 0.7). -/
theorem C10_counterexample :
    (basic_validation "abcdefghi" "abcdefghijkl").is_correct = false ∧
    (basic_validation "abcdefghijkl" "abcdefghi").is_correct = true := by
  with_unfolding_all decide

/-- Witness for C10 at two 12-character strings: the decision is the same
in both argument orders and the similarity is symmetric. -/
theorem C10_similarity_commutative_witness :
    (basic_validation "abcdefghijkl" "mnopqrstuvwx").is_correct =
      (basic_validation "mnopqrstuvwx" "abcdefghijkl").is_correct ∧
    calculate_similarity "abcdefghijkl" "mnopqrstuvwx" =
      calculate_similarity "mnopqrstuvwx" "abcdefghijkl" :=
  ⟨(C10_similarity_commutative "abcdefghijkl" "mnopqrstuvwx").2.2.2 (by decide) (by decide),
   (C10_similarity_commutative "abcdefghijkl" "mnopqrstuvwx").2.2.1⟩
